import Mathlib

/-!
Verification of the worker task-execution and lifecycle protocol of the
`okikio/converter` repository, shallowly embedded from
`src/workers/_poolifier/abstract-worker.ts`, `src/workers/_poolifier/thread-worker.ts`
and the validation helpers of `src/utils/checks.ts`.

JavaScript values thrown or rejected with are modelled by `Err` (a string or an
`Error` object carrying a message).  Object identity of task-function entries
(the `===` comparisons of the source) is modelled by a heap of entries indexed
by `Nat` object ids: the registry `Map` is an insertion-ordered association
list from names to object ids, and `===` on entries becomes equality of ids.
Wall-clock instants (`performance.now()`) are explicit `Int` parameters, and
`setInterval` handles are modelled by the id stored in `activeInterval`
together with the multiset `liveTimers` of interval ids scheduled and not yet
cleared.  Throwing out of a handler is modelled by `Except Err`; a structured
result sent with `postMessage` is an element of `Outbound`.
-/

namespace Converter

/-- Values a JavaScript task function can throw or reject with: a plain string
or an `Error` object (represented by its message). -/
inductive Err where
  | str (s : String)
  | errObj (msg : String)
deriving DecidableEq, Repr

/-- Whether a thrown value is a plain string. -/
def Err.isStr : Err → Bool
  | .str _ => true
  | .errObj _ => false

/-- Modelled from the spec: `DEFAULT_TASK_NAME` is imported from
`utils/utils.ts`, whose snapshot in this repository only contains `chunkArray`;
the spec (sections 4.2 and 8) fixes the reserved default name as "default". -/
def DEFAULT_TASK_NAME : String := "default"

/-- Kill behaviors, from the `KillBehaviors` enum of the poolifier library. -/
inductive KillBehavior where
  | SOFT
  | HARD
deriving DecidableEq, Repr

/-- Performance statistics computation requirements (`WorkerStatistics`):
the source reads `this.statistics.runTime`. -/
structure WorkerStatistics where
  runTime : Bool
deriving DecidableEq, Repr

/-- A kill handler, abstracted to its observable behavior: whether it is an
async function and whether invoking it throws or rejects. -/
structure KillHandlerSpec where
  isAsync : Bool
  fails : Bool
deriving DecidableEq, Repr

/-- Worker options (`WorkerOptions`); every field is optional on input and the
source reads them with `??` fallbacks where it must. -/
structure WorkerOptions where
  killBehavior : Option KillBehavior := none
  maxInactiveTime : Option Int := none
  killHandler : Option KillHandlerSpec := none
deriving DecidableEq, Repr

/-- A task-function entry object (`TaskFunctionObject`): the callable is
abstracted to whether it is an async function and a map from input data to a
normal result or a thrown/rejected value. -/
structure RegEntry where
  priority : Option Int := none
  strategy : Option String := none
  isAsync : Bool := false
  impl : Int → Except Err Int := fun d => .ok d

/-- The name, priority and strategy of one registry entry
(`TaskFunctionProperties`). -/
structure TaskFunctionProperties where
  name : String
  priority : Option Int := none
  strategy : Option String := none
deriving DecidableEq, Repr

/-- The structured result of a registry operation
(`TaskFunctionOperationResult`). -/
structure OpResult where
  status : Bool
  error : Option Err := none
deriving DecidableEq, Repr

/-! JavaScript `Map` semantics on an insertion-ordered association list:
`set` overwrites in place when the key exists and appends otherwise, `get`
returns the first (only) binding, `delete` removes it. -/

/-- `Map.prototype.get`, as an insertion-ordered association list lookup. -/
def mapGet : List (String × Nat) → String → Option Nat
  | [], _ => none
  | p :: rest, k => if p.1 = k then some p.2 else mapGet rest k

/-- `Map.prototype.set`: overwrite in place keeping the insertion position,
else append. -/
def mapSet : List (String × Nat) → String → Nat → List (String × Nat)
  | [], k, v => [(k, v)]
  | p :: rest, k, v => if p.1 = k then (k, v) :: rest else p :: mapSet rest k v

/-- `Map.prototype.delete`, dropping the binding of `k`. -/
def mapDelete : List (String × Nat) → String → List (String × Nat)
  | [], _ => []
  | p :: rest, k => if p.1 = k then rest else p :: mapDelete rest k

/-! Validation helpers from `src/utils/checks.ts`.  A check returns
`some err` for the value it would `throw` and `none` when it passes; the
`typeof` tests of the source are discharged by typing. -/

/-- A string whose `trim()` is empty: every character is whitespace. -/
def isBlank (s : String) : Bool :=
  s.data.all (fun c => c.isWhitespace)

/-- `checkTaskFunctionName` of `checks.ts`: throws when the name trims to the
empty string. -/
def checkTaskFunctionName (name : String) : Option Err :=
  if isBlank name then some (.errObj "name parameter is an empty string") else none

/-- `Number.isSafeInteger` on an integer: magnitude at most `2 ^ 53 - 1`. -/
def isSafeInt (n : Int) : Bool :=
  decide (n.natAbs ≤ 9007199254740991)

/-- `checkValidPriority` of `checks.ts`. -/
def checkValidPriority (priority : Option Int) : Option Err :=
  match priority with
  | none => none
  | some p =>
    if ¬ isSafeInt p then some (.errObj "Invalid property 'priority'")
    else if p < -20 ∨ p > 19 then
      some (.errObj "Property 'priority' must be between -20 and 19")
    else none

/-- The `WorkerChoiceStrategies` enum values of the poolifier library. -/
def workerChoiceStrategies : List String :=
  ["ROUND_ROBIN", "LEAST_USED", "LEAST_BUSY", "LEAST_ELU", "FAIR_SHARE",
   "WEIGHTED_ROUND_ROBIN", "INTERLEAVED_WEIGHTED_ROUND_ROBIN"]

/-- `checkValidWorkerChoiceStrategy` of `checks.ts`. -/
def checkValidWorkerChoiceStrategy (strategy : Option String) : Option Err :=
  match strategy with
  | none => none
  | some st =>
    if st ∈ workerChoiceStrategies then none
    else some (.errObj ("Invalid worker choice strategy '" ++ st ++ "'"))

/-- `checkValidTaskFunctionObjectEntry` of `checks.ts`; the callable check on
the `taskFunction` field always passes in this typed embedding. -/
def checkValidTaskFunctionObjectEntry (name : String) (e : RegEntry) : Option Err :=
  if isBlank name then
    some (.errObj "A taskFunctions parameter object key is an empty string")
  else
    match checkValidPriority e.priority with
    | some err => some err
    | none => checkValidWorkerChoiceStrategy e.strategy

/-- `checkValidWorkerOptions` of `checks.ts`; the plain-object, enum and
callable tests are discharged by typing. -/
def checkValidWorkerOptions (opts : WorkerOptions) : Option Err :=
  match opts.maxInactiveTime with
  | none => none
  | some t =>
    if ¬ isSafeInt t then some (.errObj "maxInactiveTime option is not an integer")
    else if t < 5 then
      some (.errObj "maxInactiveTime option is not a positive integer greater or equal than 5")
    else none

/-- The state of one worker (`AbstractWorker` fields, with its entry heap and
the live-interval bookkeeping of the embedding). -/
structure WorkerState where
  id : Option String := none
  taskFunctions : List (String × Nat) := []
  store : Nat → RegEntry := fun _ => {}
  nextOid : Nat := 0
  lastTaskTimestamp : Int := 0
  statistics : Option WorkerStatistics := none
  activeInterval : Option Nat := none
  intervalPeriod : Int := 0
  liveTimers : List Nat := []
  nextTimerId : Nat := 0
  opts : WorkerOptions := {}
  port : Option Bool := none

/-- A per-task performance record (`TaskPerformance`). -/
structure TaskPerformance where
  name : String
  timestamp : Int
  runTime : Option Int := none
deriving DecidableEq, Repr

/-- Outbound messages posted with `sendToMainWorker`. -/
inductive Outbound where
  | ready (ok : Bool) (props : List TaskFunctionProperties)
  | taskFunctionsProps (props : List TaskFunctionProperties)
  | opResult (op : Option String) (status : Bool) (props : TaskFunctionProperties)
      (workerError : Option (String × Err))
  | taskSuccess (data : Int) (perf : TaskPerformance) (taskId : Option String)
  | taskError (name : Option String) (message : Err) (data : Int) (taskId : Option String)
  | killRequest (behavior : Option KillBehavior)
  | killOutcome (success : Bool)
deriving DecidableEq, Repr

/-- An inbound task (`Task`). -/
structure Task where
  name : Option String := none
  taskId : Option String := none
  data : Int := 0
deriving DecidableEq, Repr

/-- The single wire message type (`MessageValue`), restricted to the field
groups the worker reads. -/
structure MessageValue where
  workerId : Option String := none
  ready : Option Bool := none
  statistics : Option WorkerStatistics := none
  checkActive : Option Bool := none
  taskFunctionOperation : Option String := none
  taskFunctionProperties : Option TaskFunctionProperties := none
  taskFunction : Option String := none
  taskId : Option String := none
  name : Option String := none
  data : Option Int := none
  kill : Option Bool := none
deriving DecidableEq, Repr

/-- Modelled from the spec: the helper `buildTaskFunctionProperties` is
imported from `utils/utils.ts`, whose snapshot in this repository only contains
`chunkArray`; per the spec (section 4.2), `listProperties` returns the name
with the optional priority and strategy of each entry, and a missing entry
contributes a bare name. -/
def buildTaskFunctionProperties (store : Nat → RegEntry) (name : String)
    (o : Option Nat) : TaskFunctionProperties :=
  match o with
  | none => { name := name }
  | some i => { name := name, priority := (store i).priority, strategy := (store i).strategy }

/-! Task-function registry construction (`checkTaskFunctions`). -/

/-- The name the single-callable constructor path derives from the callable:
its own `name` when that is a non-whitespace string, else "fn1". -/
def derivedName (fnName : String) : String :=
  if isBlank fnName then "fn1" else fnName

/-- The `taskFunctions` constructor parameter: one callable (with its `name`
and object id), a plain-record of entries (values already wrapped as entry
objects, carrying their object ids), a value of neither shape, or absent. -/
inductive TaskFunctionsParam where
  | single (fnName : String) (oid : Nat)
  | record (entries : List (String × Nat))
  | invalid
  | missing

/-- The record loop of `checkTaskFunctions`: validate each entry, make the
first one the default alias, insert every one under its own key. -/
def checkTaskFunctionsGo (store : Nat → RegEntry) (m : List (String × Nat))
    (first : Bool) : List (String × Nat) → Except Err (List (String × Nat))
  | [] =>
    if first then .error (.errObj "taskFunctions parameter object is empty")
    else .ok m
  | (name, oid) :: rest =>
    match checkValidTaskFunctionObjectEntry name (store oid) with
    | some e => .error e
    | none =>
      let m1 := if first then mapSet m DEFAULT_TASK_NAME oid else m
      checkTaskFunctionsGo store (mapSet m1 name oid) false rest

/-- `checkTaskFunctions` of `abstract-worker.ts`: builds the initial registry
from the constructor parameter or throws. -/
def checkTaskFunctions (store : Nat → RegEntry) :
    TaskFunctionsParam → Except Err (List (String × Nat))
  | .missing => .error (.errObj "taskFunctions parameter is mandatory")
  | .single fnName oid =>
    .ok (mapSet (mapSet [] DEFAULT_TASK_NAME oid) (derivedName fnName) oid)
  | .record entries => checkTaskFunctionsGo store [] true entries
  | .invalid => .error (.errObj "taskFunctions parameter is not a function or a plain object")

/-- `listTaskFunctionsProperties` of `abstract-worker.ts`: the reserved
default name and the concrete name currently aliased as default first, then
every remaining entry. -/
def listTaskFunctionsProperties (store : Nat → RegEntry)
    (m : List (String × Nat)) : List TaskFunctionProperties :=
  let defaultTaskFunctionName :=
    match m.find? (fun p =>
        decide (p.1 ≠ DEFAULT_TASK_NAME) &&
        decide (some p.2 = mapGet m DEFAULT_TASK_NAME)) with
    | some p => p.1
    | none => DEFAULT_TASK_NAME
  buildTaskFunctionProperties store DEFAULT_TASK_NAME (mapGet m DEFAULT_TASK_NAME) ::
  buildTaskFunctionProperties store defaultTaskFunctionName (mapGet m defaultTaskFunctionName) ::
  (m.filter (fun p =>
      decide (p.1 ≠ DEFAULT_TASK_NAME) && decide (p.1 ≠ defaultTaskFunctionName))).map
    (fun p => buildTaskFunctionProperties store p.1 (some p.2))

/-! Registry mutation operations.  Each returns the
`TaskFunctionOperationResult`, the new state, and the messages it posts
(`sendTaskFunctionsPropertiesToMainWorker` on success). -/

/-- `addTaskFunction` of `abstract-worker.ts`.  The new task-function object
already lives in the heap at `oid`; on the reserved name or a failed
validation the registry is untouched. -/
def addTaskFunction (s : WorkerState) (name : String) (oid : Nat) :
    OpResult × WorkerState × List Outbound :=
  match checkTaskFunctionName name with
  | some e => ({ status := false, error := some e }, s, [])
  | none =>
    if name = DEFAULT_TASK_NAME then
      ({ status := false,
         error := some (.errObj "Cannot add a task function with the default reserved name") },
       s, [])
    else
      match checkValidTaskFunctionObjectEntry name (s.store oid) with
      | some e => ({ status := false, error := some e }, s, [])
      | none =>
        let m1 :=
          if mapGet s.taskFunctions name = mapGet s.taskFunctions DEFAULT_TASK_NAME then
            mapSet s.taskFunctions DEFAULT_TASK_NAME oid
          else s.taskFunctions
        let s2 := { s with taskFunctions := mapSet m1 name oid }
        ({ status := true }, s2,
         [Outbound.taskFunctionsProps (listTaskFunctionsProperties s2.store s2.taskFunctions)])

/-- `removeTaskFunction` of `abstract-worker.ts`. -/
def removeTaskFunction (s : WorkerState) (name : String) :
    OpResult × WorkerState × List Outbound :=
  match checkTaskFunctionName name with
  | some e => ({ status := false, error := some e }, s, [])
  | none =>
    if name = DEFAULT_TASK_NAME then
      ({ status := false,
         error := some (.errObj "Cannot remove the task function with the default reserved name") },
       s, [])
    else if mapGet s.taskFunctions name = mapGet s.taskFunctions DEFAULT_TASK_NAME then
      ({ status := false,
         error := some (.errObj "Cannot remove the task function used as the default task function") },
       s, [])
    else
      let deleteStatus := (mapGet s.taskFunctions name).isSome
      let s2 := { s with taskFunctions := mapDelete s.taskFunctions name }
      ({ status := deleteStatus }, s2,
       [Outbound.taskFunctionsProps (listTaskFunctionsProperties s2.store s2.taskFunctions)])

/-- `setDefaultTaskFunction` of `abstract-worker.ts`. -/
def setDefaultTaskFunction (s : WorkerState) (name : String) :
    OpResult × WorkerState × List Outbound :=
  match checkTaskFunctionName name with
  | some e => ({ status := false, error := some e }, s, [])
  | none =>
    if name = DEFAULT_TASK_NAME then
      ({ status := false,
         error := some (.errObj
           "Cannot set the default task function reserved name as the default task function") },
       s, [])
    else
      match mapGet s.taskFunctions name with
      | none =>
        ({ status := false,
           error := some (.errObj
             "Cannot set the default task function to a non-existing task function") },
         s, [])
      | some v =>
        let s2 := { s with taskFunctions := mapSet s.taskFunctions DEFAULT_TASK_NAME v }
        ({ status := true }, s2,
         [Outbound.taskFunctionsProps (listTaskFunctionsProperties s2.store s2.taskFunctions)])

/-! Error formatting.  `AbstractWorker.handleError` converts an `Error` object
to its message string; `ThreadWorker.handleError` overrides it with an
identity cast (`return error as string`). -/

/-- `handleError` of `abstract-worker.ts`: an `Error` becomes its message. -/
def abstractHandleError : Err → Err
  | .errObj m => .str m
  | .str s => .str s

/-- `handleError` of `thread-worker.ts`: the value is passed through unchanged. -/
def threadHandleError : Err → Err := fun e => e

/-! Lifecycle / idle monitor. -/

/-- `startCheckActive` of `abstract-worker.ts`: records the current time as
last activity and schedules a new interval at half `maxInactiveTime`.  The
previous `activeInterval` handle, if any, is overwritten without being
cleared, so its interval stays in `liveTimers`. -/
def startCheckActive (s : WorkerState) (now : Int) : WorkerState :=
  { s with
    lastTaskTimestamp := now,
    intervalPeriod := (s.opts.maxInactiveTime.getD 60000) / 2,
    activeInterval := some s.nextTimerId,
    liveTimers := s.liveTimers ++ [s.nextTimerId],
    nextTimerId := s.nextTimerId + 1 }

/-- `stopCheckActive` of `abstract-worker.ts`: clears the stored interval
handle, if there is one. -/
def stopCheckActive (s : WorkerState) : WorkerState :=
  match s.activeInterval with
  | some h =>
    { s with
      liveTimers := s.liveTimers.filter (fun i => decide (i ≠ h)),
      activeInterval := none }
  | none => s

/-- `checkActive` of `abstract-worker.ts`, run at each interval tick: when the
worker has been idle longer than `maxInactiveTime` it posts a kill request
carrying the configured kill behavior; it never mutates the worker. -/
def checkActiveStep (s : WorkerState) (now : Int) : WorkerState × List Outbound :=
  if now - s.lastTaskTimestamp > s.opts.maxInactiveTime.getD 60000 then
    (s, [Outbound.killRequest s.opts.killBehavior])
  else
    (s, [])

/-- The `checkActive` branch of `messageEventListener`: arm on `true`,
disarm on `false`. -/
def toggleCheckActive (s : WorkerState) (b : Bool) (now : Int) : WorkerState :=
  if b then startCheckActive s now else stopCheckActive s

/-- A sequence of active-monitor toggle messages, each with its arrival time. -/
def processToggles (s : WorkerState) : List (Bool × Int) → WorkerState
  | [] => s
  | (b, t) :: rest => processToggles (toggleCheckActive s b t) rest

/-- `updateLastTaskTimestamp` of `abstract-worker.ts`: refresh the
last-activity time only while the monitor is armed. -/
def updateLastTaskTimestamp (s : WorkerState) (now : Int) : WorkerState :=
  if s.activeInterval.isSome then { s with lastTaskTimestamp := now } else s

/-! Execution engine. -/

/-- `beginTaskPerformance` of `abstract-worker.ts`: throws when the pool has
not yet sent the statistics-configuration message. -/
def beginTaskPerformance (s : WorkerState) (name : Option String) (now : Int) :
    Except Err TaskPerformance :=
  match s.statistics with
  | none => .error (.errObj "Performance statistics computation requirements not set")
  | some _ => .ok { name := name.getD DEFAULT_TASK_NAME, timestamp := now }

/-- `endTaskPerformance` of `abstract-worker.ts`. -/
def endTaskPerformance (s : WorkerState) (tp : TaskPerformance) (now : Int) :
    Except Err TaskPerformance :=
  match s.statistics with
  | none => .error (.errObj "Performance statistics computation requirements not set")
  | some st =>
    .ok { tp with runTime := if st.runTime then some (now - tp.timestamp) else none }

/-- `runSync` of `abstract-worker.ts`: the whole body is inside `try`; any
throw is caught and reported as an error envelope, and `finally` refreshes the
last-activity time.  `t0` and `t1` are the start and end instants. -/
def runSync (handleErr : Err → Err) (s : WorkerState) (fn : Int → Except Err Int)
    (task : Task) (t0 t1 : Int) : WorkerState × List Outbound :=
  let out :=
    match beginTaskPerformance s task.name t0 with
    | .error e => [Outbound.taskError task.name (handleErr e) task.data task.taskId]
    | .ok perf =>
      match fn task.data with
      | .error e => [Outbound.taskError task.name (handleErr e) task.data task.taskId]
      | .ok res =>
        match endTaskPerformance s perf t1 with
        | .error e => [Outbound.taskError task.name (handleErr e) task.data task.taskId]
        | .ok perf2 => [Outbound.taskSuccess res perf2 task.taskId]
  (updateLastTaskTimestamp s t1, out)

/-- `runAsync` of `abstract-worker.ts`: `beginTaskPerformance` is called
before the promise chain and outside any `try`, so its throw escapes the
listener (`Except.error`); rejections of the task function or of the `then`
continuation are caught by `.catch` and reported, and `.finally` refreshes the
last-activity time. -/
def runAsync (handleErr : Err → Err) (s : WorkerState) (fn : Int → Except Err Int)
    (task : Task) (t0 t1 : Int) : Except Err (WorkerState × List Outbound) :=
  match beginTaskPerformance s task.name t0 with
  | .error e => .error e
  | .ok perf =>
    .ok (match fn task.data with
      | .error e =>
        (updateLastTaskTimestamp s t1,
         [Outbound.taskError task.name (handleErr e) task.data task.taskId])
      | .ok res =>
        match endTaskPerformance s perf t1 with
        | .error e =>
          (updateLastTaskTimestamp s t1,
           [Outbound.taskError task.name (handleErr e) task.data task.taskId])
        | .ok perf2 =>
          (updateLastTaskTimestamp s t1, [Outbound.taskSuccess res perf2 task.taskId]))

/-- The string `${name!}` interpolates to for an optional task name. -/
def nameOrUndefined : Option String → String
  | some n => n
  | none => "undefined"

/-- `run` of `abstract-worker.ts`: resolve the task name (falling back to the
reserved default name), report an unknown name as an error envelope, else
dispatch on whether the resolved function is async. -/
def run (handleErr : Err → Err) (s : WorkerState) (task : Task) (t0 t1 : Int) :
    Except Err (WorkerState × List Outbound) :=
  let taskFunctionName := task.name.getD DEFAULT_TASK_NAME
  match mapGet s.taskFunctions taskFunctionName with
  | none =>
    .ok (s,
      [Outbound.taskError task.name
        (.str ("Task function '" ++ nameOrUndefined task.name ++ "' not found"))
        task.data task.taskId])
  | some oid =>
    if (s.store oid).isAsync then
      runAsync handleErr s (s.store oid).impl task t0 t1
    else
      .ok (runSync handleErr s (s.store oid).impl task t0 t1)

/-! Protocol dispatcher. -/

/-- `checkMessageWorkerId` of `abstract-worker.ts`: the value it throws, or
`none` when the inbound worker id is present and matches. -/
def checkMessageWorkerId (s : WorkerState) (msg : MessageValue) : Option Err :=
  match msg.workerId with
  | none => some (.errObj "Message worker id is not set")
  | some w =>
    if s.id ≠ some w then
      some (.errObj ("Message worker id " ++ w ++ " does not match the worker id " ++
        nameOrUndefined s.id))
    else none

/-- The reply of `handleTaskFunctionOperationMessage` after the switch: the
inner operation's own messages, then the operation-result envelope, with a
`workerError` only on failure. -/
def opReply (handleErr : Err → Err) (op : Option String) (props : TaskFunctionProperties)
    (r : OpResult × WorkerState × List Outbound) : WorkerState × List Outbound :=
  (r.2.1,
   r.2.2 ++ [Outbound.opResult op r.1.status props
     (if r.1.status then none
      else r.1.error.map (fun e => (props.name, handleErr e)))])

/-- `handleTaskFunctionOperationMessage` of `abstract-worker.ts`.  `compile`
models `new Function("return " ++ src)()`, giving the async flag and behavior
of the reconstructed callable.  Missing `taskFunctionProperties`, and a
missing source string on "add", are thrown; an unrecognized operation name is
answered with a structured error envelope. -/
def handleTaskFunctionOperationMessage (handleErr : Err → Err)
    (compile : String → Bool × (Int → Except Err Int)) (s : WorkerState)
    (msg : MessageValue) : Except Err (WorkerState × List Outbound) :=
  match msg.taskFunctionProperties with
  | none =>
    .error (.errObj "Cannot handle task function operation message without task function properties")
  | some props =>
    match msg.taskFunctionOperation with
    | some "add" =>
      match msg.taskFunction with
      | none =>
        .error (.errObj "Cannot handle task function operation add message without task function")
      | some src =>
        let entry : RegEntry :=
          { priority := props.priority, strategy := props.strategy,
            isAsync := (compile src).1, impl := (compile src).2 }
        let s1 : WorkerState :=
          { s with
            store := fun i => if i = s.nextOid then entry else s.store i,
            nextOid := s.nextOid + 1 }
        .ok (opReply handleErr (some "add") props (addTaskFunction s1 props.name s.nextOid))
    | some "remove" =>
      .ok (opReply handleErr (some "remove") props (removeTaskFunction s props.name))
    | some "default" =>
      .ok (opReply handleErr (some "default") props (setDefaultTaskFunction s props.name))
    | op =>
      .ok (opReply handleErr op props
        ({ status := false, error := some (.errObj "Unknown task operation") }, s, []))

/-- `handleKillMessage` of `abstract-worker.ts`: disarm the idle monitor
first, then run the kill handler; either outcome is posted, never thrown. -/
def handleKillMessage (s : WorkerState) (_msg : MessageValue) : WorkerState × List Outbound :=
  let s1 := stopCheckActive s
  match s1.opts.killHandler with
  | none => (s1, [Outbound.killOutcome true])
  | some h => (s1, [Outbound.killOutcome (!h.fails)])

/-- `messageEventListener` of `abstract-worker.ts`: validate the worker id
first (throwing on violation), then route the envelope to exactly one handler
in the fixed classification order. -/
def messageEventListener (handleErr : Err → Err)
    (compile : String → Bool × (Int → Except Err Int)) (s : WorkerState)
    (msg : MessageValue) (t0 t1 : Int) : Except Err (WorkerState × List Outbound) :=
  match checkMessageWorkerId s msg with
  | some e => .error e
  | none =>
    if msg.statistics.isSome then
      .ok ({ s with statistics := msg.statistics }, [])
    else if msg.checkActive.isSome then
      .ok (toggleCheckActive s (msg.checkActive = some true) t0, [])
    else if msg.taskFunctionOperation.isSome then
      handleTaskFunctionOperationMessage handleErr compile s msg
    else if msg.taskId.isSome then
      run handleErr s { name := msg.name, taskId := msg.taskId, data := msg.data.getD 0 } t0 t1
    else if msg.kill = some true then
      .ok (handleKillMessage s msg)
    else
      .ok (s, [])

/-! Ready handshake of `thread-worker.ts`. -/

/-- The one-time handshake event received from the pool. -/
structure ReadyEvent where
  workerId : Option String := none
  ready : Option Bool := none
  port : Option Bool := none
deriving DecidableEq, Repr

/-- `handleReadyMessageEvent` of `thread-worker.ts`: the guard requires the
worker id, `ready: false`, and a non-null port; inside the guard the id and
port are stored, and a ready envelope is posted, with `ready := false` when
wiring the port throws (the port value is its validity: `some true` wires, and
`some false` throws on the `onmessage` assignment).  A message failing the
guard is ignored entirely. -/
def handleReadyMessageEvent (s : WorkerState) (ev : ReadyEvent) :
    WorkerState × List Outbound :=
  if ev.workerId.isSome ∧ ev.ready = some false ∧ ev.port.isSome then
    let s1 := { s with id := ev.workerId, port := ev.port }
    if ev.port = some true then
      (s1, [Outbound.ready true (listTaskFunctionsProperties s1.store s1.taskFunctions)])
    else
      (s1, [Outbound.ready false (listTaskFunctionsProperties s1.store s1.taskFunctions)])
  else
    (s, [])

/-! Concrete instances used by witnesses and counterexamples. -/

/-- A task-function entry that always rejects with the string-free `Error`
value carrying "boom". -/
def boomEntry : RegEntry := { impl := fun _ => .error (.errObj "boom") }

/-- An asynchronous entry. -/
def asyncEntry : RegEntry := { isAsync := true, impl := fun _ => .ok 0 }

/-- A compile model for operation messages in witnesses: every source string
becomes a synchronous identity function. -/
def idCompile : String → Bool × (Int → Except Err Int) := fun _ => (false, fun d => .ok d)

/-- A worker whose registry holds the default alias and a concrete name "a",
both the same entry object. -/
def wRegState : WorkerState := { taskFunctions := [("default", 0), ("a", 0)] }

/-- A worker that completed its handshake with id "w". -/
def wIdState : WorkerState := { id := some "w" }

/-- A worker holding one async task function as its default, before the pool
has sent the statistics-configuration message. -/
def c6State : WorkerState := { taskFunctions := [("default", 0)], store := fun _ => asyncEntry }

/-- A worker with statistics configured and a registered task function "boom"
that always rejects. -/
def c7State : WorkerState :=
  { taskFunctions := [("boom", 0)], store := fun _ => boomEntry,
    statistics := some { runTime := false } }

/-- The worker of `c7State`, but before the pool has sent the
statistics-configuration message. -/
def c7StateNoStats : WorkerState :=
  { taskFunctions := [("boom", 0)], store := fun _ => boomEntry }

/-- Worker options configuring a 100 ms inactivity bound. -/
def c5State (kb : KillBehavior) : WorkerState :=
  { opts := { killBehavior := some kb, maxInactiveTime := some 100 } }

/-! Helper lemmas about the JavaScript `Map` embedding. -/

theorem mapGet_mapSet_self (m : List (String × Nat)) (k : String) (v : Nat) :
    mapGet (mapSet m k v) k = some v := by
  induction m with
  | nil => simp [mapSet, mapGet]
  | cons p rest ih =>
    by_cases h : p.1 = k
    · simp [mapSet, mapGet, h]
    · simp [mapSet, mapGet, h, ih]

theorem mapGet_mapSet_ne (m : List (String × Nat)) (k k' : String) (v : Nat)
    (h : k' ≠ k) : mapGet (mapSet m k v) k' = mapGet m k' := by
  induction m with
  | nil => simp [mapSet, mapGet, Ne.symm h]
  | cons p rest ih =>
    by_cases hp : p.1 = k
    · simp [mapSet, mapGet, hp, Ne.symm h]
    · simp [mapSet, mapGet, hp, ih]

theorem updateLastTaskTimestamp_taskFunctions (s : WorkerState) (t : Int) :
    (updateLastTaskTimestamp s t).taskFunctions = s.taskFunctions := by
  unfold updateLastTaskTimestamp; split <;> rfl

theorem updateLastTaskTimestamp_statistics (s : WorkerState) (t : Int) :
    (updateLastTaskTimestamp s t).statistics = s.statistics := by
  unfold updateLastTaskTimestamp; split <;> rfl

theorem updateLastTaskTimestamp_store (s : WorkerState) (t : Int) :
    (updateLastTaskTimestamp s t).store = s.store := by
  unfold updateLastTaskTimestamp; split <;> rfl

/-! Claim C1. -/

/-- C1 (counterexample): a single callable whose own name is the reserved
default name "default" collapses both constructor inserts onto one registry
entry, so the registry does not end up with two entries, and the first two
elements of the listing are not a default/derived pair differing only in
name — they are the same bare default twice. -/
theorem single_callable_named_default_collapses :
    checkTaskFunctions (fun _ => {}) (.single "default" 7) = .ok [("default", 7)] ∧
    listTaskFunctionsProperties (fun _ => {}) [("default", 7)]
      = [{ name := "default" }, { name := "default" }] := by
  exact ⟨rfl, rfl⟩

/-- C1 (amended): for every single callable whose own name is not the
reserved default name, the registry ends up with exactly the two entries
default-name and derived-name, both mapped to the same entry object, and
`listTaskFunctionsProperties` returns exactly those two as its elements,
identical in every field except the name. -/
theorem single_callable_registers_default_and_derived
    (store : Nat → RegEntry) (fnName : String) (oid : Nat)
    (h : fnName ≠ DEFAULT_TASK_NAME) :
    checkTaskFunctions store (.single fnName oid)
      = .ok [(DEFAULT_TASK_NAME, oid), (derivedName fnName, oid)] ∧
    derivedName fnName ≠ DEFAULT_TASK_NAME ∧
    listTaskFunctionsProperties store [(DEFAULT_TASK_NAME, oid), (derivedName fnName, oid)]
      = [{ name := DEFAULT_TASK_NAME, priority := (store oid).priority,
           strategy := (store oid).strategy },
         { name := derivedName fnName, priority := (store oid).priority,
           strategy := (store oid).strategy }] := by
  have hd : derivedName fnName ≠ DEFAULT_TASK_NAME := by
    unfold derivedName
    split
    · decide
    · exact h
  refine ⟨?_, hd, ?_⟩
  · simp [checkTaskFunctions, mapSet, Ne.symm hd]
  · simp [listTaskFunctionsProperties, mapGet, List.find?, List.filter,
      buildTaskFunctionProperties, hd, Ne.symm hd]

theorem single_callable_registers_default_and_derived_witness :
    checkTaskFunctions (fun _ => {}) (.single "double" 3)
      = .ok [(DEFAULT_TASK_NAME, 3), ("double", 3)] := by
  have h := single_callable_registers_default_and_derived (fun _ => {}) "double" 3 (by decide)
  simpa [derivedName] using h.1

/-! Claim C2. -/

/-- C2: a successful `addTaskFunction` with a non-reserved name overwrites the
name unconditionally, repoints the default alias to the new entry when the
overwritten name was the entry aliased as default, and leaves the registry
with a default-name entry aliasing some concrete entry. -/
theorem addTaskFunction_overwrites_and_repoints_default
    (s : WorkerState) (name : String) (oid : Nat)
    (hsucc : (addTaskFunction s name oid).1.status = true)
    (hdef : (mapGet s.taskFunctions DEFAULT_TASK_NAME).isSome) :
    mapGet (addTaskFunction s name oid).2.1.taskFunctions name = some oid ∧
    (mapGet s.taskFunctions name = mapGet s.taskFunctions DEFAULT_TASK_NAME →
      mapGet (addTaskFunction s name oid).2.1.taskFunctions DEFAULT_TASK_NAME = some oid) ∧
    (mapGet (addTaskFunction s name oid).2.1.taskFunctions DEFAULT_TASK_NAME).isSome := by
  unfold addTaskFunction at hsucc ⊢
  cases hname : checkTaskFunctionName name with
  | some e => simp only [hname] at hsucc; simp at hsucc
  | none =>
    simp only [hname] at hsucc
    by_cases hdflt : name = DEFAULT_TASK_NAME
    · simp [hdflt] at hsucc
    · rw [if_neg hdflt] at hsucc
      cases hval : checkValidTaskFunctionObjectEntry name (s.store oid) with
      | some e => simp only [hval] at hsucc; simp at hsucc
      | none =>
        have hDne : DEFAULT_TASK_NAME ≠ name := fun hh => hdflt hh.symm
        by_cases hcond :
            mapGet s.taskFunctions name = mapGet s.taskFunctions DEFAULT_TASK_NAME
        · refine ⟨?_, ?_, ?_⟩
          · simp [hname, hdflt, hval, hcond, mapGet_mapSet_self]
          · intro _
            simp [hname, hdflt, hval, hcond, mapGet_mapSet_ne _ _ _ _ hDne,
              mapGet_mapSet_self]
          · simp [hname, hdflt, hval, hcond, mapGet_mapSet_ne _ _ _ _ hDne,
              mapGet_mapSet_self]
        · refine ⟨?_, ?_, ?_⟩
          · simp [hname, hdflt, hval, hcond, mapGet_mapSet_self]
          · intro hc; exact absurd hc hcond
          · simp [hname, hdflt, hval, hcond, mapGet_mapSet_ne _ _ _ _ hDne, hdef]

theorem addTaskFunction_overwrites_and_repoints_default_witness :
    mapGet (addTaskFunction wRegState "a" 1).2.1.taskFunctions "a" = some 1 ∧
    mapGet (addTaskFunction wRegState "a" 1).2.1.taskFunctions DEFAULT_TASK_NAME = some 1 := by
  have h := addTaskFunction_overwrites_and_repoints_default wRegState "a" 1 (by rfl) (by rfl)
  exact ⟨h.1, h.2.1 (by rfl)⟩

/-! Claim C3. -/

/-- C3: adding under the reserved default name always fails with the
reserved-name error and leaves the worker untouched; removing the reserved
default name, or any well-formed name whose entry is currently aliased as the
default, always fails with the corresponding protected-entry error and deletes
nothing. -/
theorem reserved_and_protected_registry_operations_fail
    (s : WorkerState) (name : String) (oid : Nat)
    (h1 : name ≠ DEFAULT_TASK_NAME) (h2 : isBlank name = false)
    (h3 : mapGet s.taskFunctions name = mapGet s.taskFunctions DEFAULT_TASK_NAME) :
    addTaskFunction s DEFAULT_TASK_NAME oid
      = ({ status := false,
           error := some (.errObj "Cannot add a task function with the default reserved name") },
         s, []) ∧
    removeTaskFunction s DEFAULT_TASK_NAME
      = ({ status := false,
           error := some (.errObj "Cannot remove the task function with the default reserved name") },
         s, []) ∧
    removeTaskFunction s name
      = ({ status := false,
           error := some (.errObj "Cannot remove the task function used as the default task function") },
         s, []) := by
  refine ⟨rfl, rfl, ?_⟩
  have hname : checkTaskFunctionName name = none := by
    simp [checkTaskFunctionName, h2]
  unfold removeTaskFunction
  rw [hname, if_neg h1, if_pos h3]

theorem reserved_and_protected_registry_operations_fail_witness :
    removeTaskFunction wRegState "a"
      = ({ status := false,
           error := some (.errObj "Cannot remove the task function used as the default task function") },
         wRegState, []) := by
  exact (reserved_and_protected_registry_operations_fail wRegState "a" 9
    (by decide) (by decide) (by rfl)).2.2

/-! Claim C4. -/

/-- C4: in the ready state, an inbound envelope whose worker id is missing or
differs from the stored worker id makes the message listener throw
synchronously before any classification; the `Except.error` result carries no
successor state and no outbound messages, so no handler (statistics,
checkActive, registry operation, task, or kill) runs on that envelope. -/
theorem mismatched_worker_id_is_fatal_before_classification
    (handleErr : Err → Err) (compile : String → Bool × (Int → Except Err Int))
    (s : WorkerState) (msg : MessageValue) (t0 t1 : Int)
    (h : msg.workerId = none ∨ msg.workerId ≠ s.id) :
    ∃ e, messageEventListener handleErr compile s msg t0 t1 = Except.error e := by
  unfold messageEventListener
  cases hw : msg.workerId with
  | none =>
    exact ⟨.errObj "Message worker id is not set", by simp [checkMessageWorkerId, hw]⟩
  | some w =>
    have hne : s.id ≠ some w := by
      rcases h with h | h
      · rw [hw] at h; cases h
      · rw [hw] at h; exact fun hh => h hh.symm
    exact ⟨.errObj ("Message worker id " ++ w ++ " does not match the worker id " ++
        nameOrUndefined s.id),
      by simp [checkMessageWorkerId, hw, hne]⟩

theorem mismatched_worker_id_is_fatal_before_classification_witness :
    ∃ e, messageEventListener threadHandleError idCompile wIdState
      { workerId := some "other", taskId := some "t1", data := some 5 } 0 1
      = Except.error e := by
  exact mismatched_worker_id_is_fatal_before_classification threadHandleError idCompile
    wIdState { workerId := some "other", taskId := some "t1", data := some 5 } 0 1
    (Or.inr (by decide))

/-! Claim C5.  Real time is idealized: the interval armed at instant 0 with
`maxInactiveTime = 100` fires `checkActive` at the instants 50, 100, 150, …
(every `intervalPeriod = 50`).  The theorem shows no tick at or before
instant 100 emits anything — in particular none before 50 — and every tick
after 100 emits exactly the one kill-request envelope carrying the configured
kill behavior, so the single tick falling in the window (50, 150] that emits,
at instant 150, emits exactly one; the tick leaves the worker state untouched
(the kill-request terminates nothing). -/

/-- C5: arming the idle monitor at instant 0 with a 100 ms inactivity bound
schedules a 50 ms period; ticks at or before 100 emit nothing, and any later
tick emits exactly one kill-request carrying the configured kill behavior,
without changing the worker. -/
theorem idle_monitor_emits_single_kill_request_in_window (kb : KillBehavior) :
    (startCheckActive (c5State kb) 0).intervalPeriod = 50 ∧
    (∀ t : Int, t ≤ 100 →
      checkActiveStep (startCheckActive (c5State kb) 0) t
        = (startCheckActive (c5State kb) 0, [])) ∧
    (∀ t : Int, 100 < t →
      checkActiveStep (startCheckActive (c5State kb) 0) t
        = (startCheckActive (c5State kb) 0, [Outbound.killRequest (some kb)])) := by
  refine ⟨rfl, ?_, ?_⟩
  · intro t ht
    unfold checkActiveStep
    split
    · next hgt =>
        exfalso
        simp [startCheckActive, c5State] at hgt
        omega
    · rfl
  · intro t ht
    unfold checkActiveStep
    split
    · rfl
    · next hng =>
        exfalso
        simp [startCheckActive, c5State] at hng
        omega

theorem idle_monitor_emits_single_kill_request_in_window_witness :
    checkActiveStep (startCheckActive (c5State KillBehavior.SOFT) 0) 50
      = (startCheckActive (c5State KillBehavior.SOFT) 0, []) ∧
    checkActiveStep (startCheckActive (c5State KillBehavior.SOFT) 0) 150
      = (startCheckActive (c5State KillBehavior.SOFT) 0,
         [Outbound.killRequest (some KillBehavior.SOFT)]) := by
  exact ⟨(idle_monitor_emits_single_kill_request_in_window KillBehavior.SOFT).2.1 50 (by norm_num),
         (idle_monitor_emits_single_kill_request_in_window KillBehavior.SOFT).2.2 150 (by norm_num)⟩

/-! Claim C6. -/

/-- C6 (counterexample): a task submitted before the pool has sent the
statistics-configuration message, whose resolved task function is
asynchronous, makes `run` throw synchronously (`runAsync` calls
`beginTaskPerformance` outside any try), instead of producing the structured
error envelope the synchronous path produces — so the behavior is not
identical between the two paths. -/
theorem async_statistics_not_configured_throws :
    run threadHandleError c6State { taskId := some "t1", data := 5 } 0 1
      = Except.error (.errObj "Performance statistics computation requirements not set") := by
  rfl

/-- C6 (amended): when a task arrives before the statistics-configuration
message, the synchronous path reports the statistics-not-configured failure as
a structured error envelope without terminating the worker, but the
asynchronous path throws it synchronously out of the listener instead of
reporting it as an envelope. -/
theorem statistics_not_configured_sync_vs_async
    (handleErr : Err → Err) (s : WorkerState) (task : Task) (oid : Nat) (t0 t1 : Int)
    (hstats : s.statistics = none)
    (hfound : mapGet s.taskFunctions (task.name.getD DEFAULT_TASK_NAME) = some oid) :
    ((s.store oid).isAsync = false →
      run handleErr s task t0 t1
        = Except.ok (updateLastTaskTimestamp s t1,
            [Outbound.taskError task.name
              (handleErr (.errObj "Performance statistics computation requirements not set"))
              task.data task.taskId])) ∧
    ((s.store oid).isAsync = true →
      run handleErr s task t0 t1
        = Except.error (.errObj "Performance statistics computation requirements not set")) := by
  constructor
  · intro ha
    simp only [run, hfound, ha, Bool.false_eq_true, if_false]
    simp [runSync, beginTaskPerformance, hstats]
  · intro ha
    simp only [run, hfound, ha, if_true]
    simp [runAsync, beginTaskPerformance, hstats]

theorem statistics_not_configured_sync_vs_async_witness :
    run threadHandleError c7StateNoStats { name := some "boom", taskId := some "t1", data := 5 } 0 1
      = Except.ok (updateLastTaskTimestamp c7StateNoStats 1,
          [Outbound.taskError (some "boom")
            (.errObj "Performance statistics computation requirements not set")
            5 (some "t1")]) := by
  exact (statistics_not_configured_sync_vs_async threadHandleError c7StateNoStats
    { name := some "boom", taskId := some "t1", data := 5 } 0 0 1 rfl rfl).1 rfl

/-! Claim C7. -/

/-- C7 (counterexample): the thread worker's `handleError` override returns
the thrown value unchanged (`return error as string`), so a task function
rejecting with an `Error` object produces an error envelope whose message
field is that `Error` object, not a string-formatted message. -/
theorem thread_worker_error_message_not_string_formatted :
    run threadHandleError c7State { name := some "boom", taskId := some "t1", data := 5 } 0 1
      = Except.ok (c7State,
          [Outbound.taskError (some "boom") (.errObj "boom") 5 (some "t1")]) ∧
    Err.isStr (.errObj "boom") = false := by
  exact ⟨rfl, rfl⟩

/-- C7 (amended): a task whose resolved task function throws or rejects makes
the worker send exactly one error envelope containing the task name, the raw
thrown value as the message (string only when a string was thrown, since the
thread worker's `handleError` is the identity), the original data and the
task id; the worker state survives with its registry and statistics intact,
and a subsequent valid task still produces its success envelope. -/
theorem failing_task_emits_single_error_envelope
    (s : WorkerState) (task : Task) (oid : Nat) (e : Err) (st : WorkerStatistics) (t0 t1 : Int)
    (hstats : s.statistics = some st)
    (hfound : mapGet s.taskFunctions (task.name.getD DEFAULT_TASK_NAME) = some oid)
    (hfail : (s.store oid).impl task.data = Except.error e) :
    run threadHandleError s task t0 t1
      = Except.ok (updateLastTaskTimestamp s t1,
          [Outbound.taskError task.name e task.data task.taskId]) ∧
    (updateLastTaskTimestamp s t1).taskFunctions = s.taskFunctions ∧
    (updateLastTaskTimestamp s t1).statistics = s.statistics ∧
    (∀ (task2 : Task) (oid2 : Nat) (r : Int) (t2 t3 : Int),
      mapGet s.taskFunctions (task2.name.getD DEFAULT_TASK_NAME) = some oid2 →
      (s.store oid2).isAsync = false →
      (s.store oid2).impl task2.data = Except.ok r →
      run threadHandleError (updateLastTaskTimestamp s t1) task2 t2 t3
        = Except.ok (updateLastTaskTimestamp (updateLastTaskTimestamp s t1) t3,
            [Outbound.taskSuccess r
              { name := task2.name.getD DEFAULT_TASK_NAME, timestamp := t2,
                runTime := if st.runTime then some (t3 - t2) else none }
              task2.taskId])) := by
  refine ⟨?_, updateLastTaskTimestamp_taskFunctions s t1,
    updateLastTaskTimestamp_statistics s t1, ?_⟩
  · by_cases ha : (s.store oid).isAsync = true
    · simp only [run, hfound, ha, if_true]
      simp [runAsync, beginTaskPerformance, hstats, hfail, threadHandleError]
    · simp only [run, hfound, Bool.not_eq_true] at ha ⊢
      simp only [ha, Bool.false_eq_true, if_false]
      simp [runSync, beginTaskPerformance, hstats, hfail, threadHandleError]
  · intro task2 oid2 r t2 t3 hfound2 ha2 hok2
    simp only [run, updateLastTaskTimestamp_taskFunctions, hfound2,
      updateLastTaskTimestamp_store, updateLastTaskTimestamp_statistics,
      ha2, Bool.false_eq_true, if_false]
    simp [runSync, beginTaskPerformance, endTaskPerformance,
      updateLastTaskTimestamp_statistics, hstats, hok2]

theorem failing_task_emits_single_error_envelope_witness :
    run threadHandleError c7State { name := some "boom", taskId := some "t1", data := 5 } 0 1
      = Except.ok (updateLastTaskTimestamp c7State 1,
          [Outbound.taskError (some "boom") (.errObj "boom") 5 (some "t1")]) := by
  exact (failing_task_emits_single_error_envelope c7State
    { name := some "boom", taskId := some "t1", data := 5 } 0 (.errObj "boom")
    { runTime := false } 0 1 rfl rfl rfl).1

/-! Claim C8. -/

/-- C8 (counterexample): arming twice in a row (two `checkActive: true`
toggles) overwrites the stored interval handle without clearing it, leaving
two live interval timers — the first one orphaned — so the monitor can be
double-started. -/
theorem double_toggle_creates_second_live_timer :
    (toggleCheckActive (toggleCheckActive ({} : WorkerState) true 0) true 10).liveTimers
      = [0, 1] ∧
    (toggleCheckActive (toggleCheckActive ({} : WorkerState) true 0) true 10).activeInterval
      = some 1 := by
  exact ⟨rfl, rfl⟩

/-- C8 (amended): after any sequence of active-monitor toggles, the stored
interval handle exists iff the last toggle turned checking on; but a
`checkActive: true` received while a timer already exists schedules a second
live interval and orphans the first — the handle is overwritten without
clearing, the old interval stays live, and the new handle differs from it. -/
theorem active_interval_exists_iff_last_toggle_on :
    (∀ (s : WorkerState) (l : List (Bool × Int)) (b : Bool) (t : Int),
      (processToggles s (l ++ [(b, t)])).activeInterval.isSome = b) ∧
    (∀ (s : WorkerState) (now : Int) (h : Nat),
      s.activeInterval = some h → h ∈ s.liveTimers → h < s.nextTimerId →
      (startCheckActive s now).liveTimers.length = s.liveTimers.length + 1 ∧
      h ∈ (startCheckActive s now).liveTimers ∧
      (startCheckActive s now).activeInterval = some s.nextTimerId ∧
      s.nextTimerId ≠ h) := by
  constructor
  · intro s l
    induction l generalizing s with
    | nil =>
      intro b t
      cases b with
      | true => rfl
      | false =>
        show (stopCheckActive s).activeInterval.isSome = false
        unfold stopCheckActive
        cases hai : s.activeInterval with
        | none => simp [hai]
        | some h => simp
    | cons p rest ih =>
      intro b t
      exact ih (toggleCheckActive s p.1 p.2) b t
  · intro s now h hint hmem hlt
    refine ⟨?_, ?_, rfl, ?_⟩
    · simp [startCheckActive]
    · simp [startCheckActive, hmem]
    · omega

theorem active_interval_exists_iff_last_toggle_on_witness :
    (processToggles ({} : WorkerState) [(true, 0)]).activeInterval.isSome = true ∧
    (startCheckActive (toggleCheckActive ({} : WorkerState) true 0) 10).liveTimers.length
      = (toggleCheckActive ({} : WorkerState) true 0).liveTimers.length + 1 := by
  refine ⟨?_, ?_⟩
  · exact active_interval_exists_iff_last_toggle_on.1 {} [] true 0
  · exact (active_interval_exists_iff_last_toggle_on.2
      (toggleCheckActive ({} : WorkerState) true 0) 10 0 rfl (by decide) (by decide)).1

/-! Claim C9. -/

/-- C9 (counterexample): a handshake event whose channel handle is missing
fails the guard of `handleReadyMessageEvent`, so the worker emits nothing at
all — not a ready-false envelope — and stores neither id nor port. -/
theorem missing_port_emits_nothing :
    handleReadyMessageEvent ({} : WorkerState)
      { workerId := some "w", ready := some false, port := none }
      = ({}, []) := by
  rfl

/-- C9 (amended): when the handshake event carries a worker id, `ready:
false`, and a channel handle, a handle that throws during wiring makes the
worker emit a ready-false envelope carrying the current task-function
property listing; but when the handle (or any other guard field) is missing,
the event is ignored and nothing is emitted. -/
theorem ready_handshake_emission :
    (∀ (s : WorkerState) (ev : ReadyEvent),
      ev.workerId.isSome → ev.ready = some false → ev.port = some false →
      handleReadyMessageEvent s ev
        = ({ s with id := ev.workerId, port := ev.port },
           [Outbound.ready false (listTaskFunctionsProperties s.store s.taskFunctions)])) ∧
    (∀ (s : WorkerState) (ev : ReadyEvent),
      ev.port = none → handleReadyMessageEvent s ev = (s, [])) := by
  constructor
  · intro s ev hid hready hport
    unfold handleReadyMessageEvent
    rw [if_pos ⟨hid, hready, by rw [hport]; rfl⟩, if_neg (by rw [hport]; decide)]
  · intro s ev hport
    unfold handleReadyMessageEvent
    rw [if_neg]
    intro hc
    rw [hport] at hc
    exact absurd hc.2.2 (by decide)

theorem ready_handshake_emission_witness :
    handleReadyMessageEvent ({} : WorkerState)
      { workerId := some "w", ready := some false, port := some false }
      = ({ ({} : WorkerState) with id := some "w", port := some false },
         [Outbound.ready false
           (listTaskFunctionsProperties ({} : WorkerState).store
             ({} : WorkerState).taskFunctions)]) := by
  exact ready_handshake_emission.1 {}
    { workerId := some "w", ready := some false, port := some false } rfl rfl rfl

/-! Claim C10. -/

/-- C10: a registry-operation envelope without `taskFunctionProperties`, and
an "add" envelope without the task-function source string, make the dispatcher
throw synchronously instead of replying, while an unrecognized operation name
is answered with a structured operation-result envelope carrying the
unknown-operation error. -/
theorem task_function_operation_missing_fields_throw
    (handleErr : Err → Err) (compile : String → Bool × (Int → Except Err Int))
    (s : WorkerState) (msg : MessageValue) :
    (msg.taskFunctionProperties = none →
      handleTaskFunctionOperationMessage handleErr compile s msg
        = Except.error
            (.errObj "Cannot handle task function operation message without task function properties")) ∧
    (∀ props, msg.taskFunctionProperties = some props →
      msg.taskFunctionOperation = some "add" → msg.taskFunction = none →
      handleTaskFunctionOperationMessage handleErr compile s msg
        = Except.error
            (.errObj "Cannot handle task function operation add message without task function")) ∧
    (∀ props op, msg.taskFunctionProperties = some props →
      msg.taskFunctionOperation = some op →
      op ≠ "add" → op ≠ "remove" → op ≠ "default" →
      handleTaskFunctionOperationMessage handleErr compile s msg
        = Except.ok (s,
            [Outbound.opResult (some op) false props
              (some (props.name, handleErr (.errObj "Unknown task operation")))])) := by
  refine ⟨?_, ?_, ?_⟩
  · intro hp
    simp [handleTaskFunctionOperationMessage, hp]
  · intro props hp hop hfn
    simp [handleTaskFunctionOperationMessage, hp, hop, hfn]
  · intro props op hp hop h1 h2 h3
    simp only [handleTaskFunctionOperationMessage, hp, hop]
    split
    · next heq => exact absurd (by injection heq) h1
    · next heq => exact absurd (by injection heq) h2
    · next heq => exact absurd (by injection heq) h3
    · simp [opReply]

theorem task_function_operation_missing_fields_throw_witness :
    handleTaskFunctionOperationMessage threadHandleError idCompile wIdState
      { workerId := some "w", taskFunctionOperation := some "add" }
      = Except.error
          (.errObj "Cannot handle task function operation message without task function properties") := by
  exact (task_function_operation_missing_fields_throw threadHandleError idCompile wIdState
    { workerId := some "w", taskFunctionOperation := some "add" }).1 rfl

end Converter
